import Mathlib

/-
Verification of the five-state power controller in `src/main.py` of the
pico-esp01 repository (class `App`).

The program is a polling loop driving an ESP-01 radio through five power
states (sleep / idle / connected / udp-socket-open / sending), stepped up and
down by two buttons.  We embed it shallowly: the mutable `self._state`
(a Python int) becomes an explicit `Int`; every observable side effect
(LED blink, status print, radio-link AT call, `time.sleep`, writing a
state-indicator pin, assigning `self._state`) becomes an `Event` appended to
a trace; the two unbounded retry loops (`_connect_wifi`, `_connect_udp`) are
embedded by structural recursion on an oracle recording the outcome of each
failed attempt before the first success; Python list indexing (including
negative indexing and IndexError) is modelled by `pyListIndex`; a handler
whose list indexing raises propagates as `HandlerResult.indexError`.
Diagnostic print payloads (exception text, formatted host:port) are elided
to fixed marker strings, which is faithful for every property below since no
claim depends on the payload text.
-/

namespace PicoEsp01

/-- State encoding, exactly the constants of `main.py`:
`STATE_SLEEP = 0`. -/
def STATE_SLEEP : Int := 0

/-- State constant of `main.py`: `STATE_IDLE = 1`. -/
def STATE_IDLE : Int := 1

/-- State constant of `main.py`: `STATE_CONN = 2`. -/
def STATE_CONN : Int := 2

/-- State constant of `main.py`: `STATE_UDP = 3`. -/
def STATE_UDP : Int := 3

/-- State constant of `main.py`: `STATE_SEND = 4`. -/
def STATE_SEND : Int := 4

/-- Length of `PINS_STATE = [board.GP5, board.GP6, board.GP7, board.GP8, board.GP9]`
(the per-state indicator pins; `self._state_pin` has one entry per state). -/
def numStatePins : Nat := 5

/-- Radio-link (ESP-01 AT control) calls made by `App`:
`hardReset` = `esp.hard_reset()`, `connect` = `wifi.connect()`,
`openSocket` = `esp.socket_connect(TYPE_UDP, remoteip, remoteport)`,
`send` = `esp.socket_send(data)`, `closeSocket` = `esp.socket_disconnect()`,
`softReset` = `esp.soft_reset()`, `deepSleep d` = `esp.deep_sleep(d)`. -/
inductive Action where
  | hardReset : Action
  | connect : Action
  | openSocket : Action
  | send : Action
  | closeSocket : Action
  | softReset : Action
  | deepSleep : Nat → Action
  deriving DecidableEq

/-- Observable events of the program, in program order:
`blink` = one `_blink()` call (flash of the onboard LED),
`printMsg s` = a `print` with marker text `s`,
`radio a` = one radio-link call `a`,
`sleepSec n` = `time.sleep(n)` inside the socket retry loop,
`pinWrite i v` = `self._state_pin[·].value = v` with the Python index already
resolved to the physical entry `i` of `PINS_STATE`,
`stateSet v` = the assignment mutating `self._state` to `v`
(`self._state += 1` / `self._state -= 1`). -/
inductive Event where
  | blink : Event
  | printMsg : String → Event
  | radio : Action → Event
  | sleepSec : Nat → Event
  | pinWrite : Nat → Nat → Event
  | stateSet : Int → Event
  deriving DecidableEq

/-- Python list-indexing semantics for a list of length `len`: a nonnegative
index `i < len` resolves to entry `i`; a negative index `-len ≤ i < 0`
resolves to entry `len + i`; anything else raises IndexError (`none`). -/
def pyListIndex (len : Nat) (i : Int) : Option Nat :=
  if 0 ≤ i ∧ i < (len : Int) then some i.toNat
  else if -(len : Int) ≤ i ∧ i < 0 then some (i + (len : Int)).toNat
  else none

/-- Embedding of `App._connect_wifi`'s unbounded retry loop
(`while True: try: print; wifi.connect(); print done; break
 except: print Failed; continue`),
indexed by the oracle `failN` = the number of attempts on which
`wifi.connect()` raises before the first success.  Each iteration prints the
attempt banner, invokes `connect`, and either prints the failure diagnostic
and recurses or prints done and returns. -/
def connectWifi : Nat → List Event
  | 0 =>
      [Event.printMsg "connecting to AP ... ", Event.radio Action.connect,
       Event.printMsg "done"]
  | n + 1 =>
      Event.printMsg "connecting to AP ... " :: Event.radio Action.connect ::
      Event.printMsg "Failed:" :: connectWifi n

/-- Outcome of one failed `esp.socket_connect` attempt in `_connect_udp`:
the call either raises an exception or returns `False`. -/
inductive UdpFailure where
  | raises : UdpFailure
  | returnsFalse : UdpFailure
  deriving DecidableEq

/-- Embedding of `App._connect_udp`'s unbounded retry loop, indexed by the
oracle `fails` = the outcomes of the failed attempts before the first
success.  Each iteration prints the attempt banner and invokes
`socket_connect`; on an attempt that raises, the loop prints the failure
diagnostic and retries immediately; on an attempt returning `False`, it
sleeps 1 second (printing nothing) and retries; on success it prints done
and returns. -/
def connectUdp : List UdpFailure → List Event
  | [] =>
      [Event.printMsg "connecting to UDP-server ", Event.radio Action.openSocket,
       Event.printMsg "done"]
  | UdpFailure.raises :: rest =>
      Event.printMsg "connecting to UDP-server " :: Event.radio Action.openSocket ::
      Event.printMsg "Failed:" :: connectUdp rest
  | UdpFailure.returnsFalse :: rest =>
      Event.printMsg "connecting to UDP-server " :: Event.radio Action.openSocket ::
      Event.sleepSec 1 :: connectUdp rest

/-- Result of one handler (or loop-iteration) run: `ok st evs` = it completed
leaving `self._state = st` having emitted the events `evs`;
`indexError st evs` = a `self._state_pin[...]` indexing raised IndexError
(propagating out) with `self._state = st` at the raise and `evs` the events
emitted before it. -/
inductive HandlerResult where
  | ok : Int → List Event → HandlerResult
  | indexError : Int → List Event → HandlerResult
  deriving DecidableEq

/-- Events emitted by a handler run, whether or not it raised. -/
def HandlerResult.events : HandlerResult → List Event
  | HandlerResult.ok _ evs => evs
  | HandlerResult.indexError _ evs => evs

/-- Branch body selected by `_handle_inc`'s if/elif chain on the
pre-transition state: Sleep → print + `hard_reset`; Idle → `_connect_wifi`;
Connected → `_connect_udp`; SocketOpen → print only; anything else → nothing. -/
def incAction (wifiFails : Nat) (udpFails : List UdpFailure) (st : Int) :
    List Event :=
  if st = STATE_SLEEP then
    [Event.printMsg "leave ESP-01 sleep", Event.radio Action.hardReset]
  else if st = STATE_IDLE then connectWifi wifiFails
  else if st = STATE_CONN then connectUdp udpFails
  else if st = STATE_UDP then [Event.printMsg "starting to send data"]
  else []

/-- Embedding of `App._handle_inc`, parameterised by the retry oracles:
`_blink()`; the if/elif action for the pre-transition state; `_blink()`;
`self._state_pin[self._state].value = 0`; `self._state += 1`;
`self._state_pin[self._state].value = 1`.  Either indexing may raise. -/
def handle_inc (wifiFails : Nat) (udpFails : List UdpFailure) (st : Int) :
    HandlerResult :=
  let pre := Event.blink :: incAction wifiFails udpFails st ++ [Event.blink]
  match pyListIndex numStatePins st with
  | none => HandlerResult.indexError st pre
  | some i =>
    match pyListIndex numStatePins (st + 1) with
    | none =>
        HandlerResult.indexError (st + 1)
          (pre ++ [Event.pinWrite i 0, Event.stateSet (st + 1)])
    | some j =>
        HandlerResult.ok (st + 1)
          (pre ++ [Event.pinWrite i 0, Event.stateSet (st + 1), Event.pinWrite j 1])

/-- Branch body selected by `_handle_dec`'s if/elif chain on the
pre-transition state: Idle → print + `deep_sleep(0)`; Connected → print +
`soft_reset`; SocketOpen → print + `socket_disconnect`; Sending → print
only; anything else → nothing. -/
def decAction (st : Int) : List Event :=
  if st = STATE_IDLE then
    [Event.printMsg "enter ESP-01 sleep", Event.radio (Action.deepSleep 0)]
  else if st = STATE_CONN then
    [Event.printMsg "disconnect from AP", Event.radio Action.softReset]
  else if st = STATE_UDP then
    [Event.printMsg "disconnect from UDP", Event.radio Action.closeSocket]
  else if st = STATE_SEND then [Event.printMsg "stop sending data"]
  else []

/-- Embedding of `App._handle_dec`: `_blink()`; the if/elif action for the
pre-transition state; `_blink()`; `self._state_pin[self._state].value = 0`;
`self._state -= 1`; `self._state_pin[self._state].value = 1`. -/
def handle_dec (st : Int) : HandlerResult :=
  let pre := Event.blink :: decAction st ++ [Event.blink]
  match pyListIndex numStatePins st with
  | none => HandlerResult.indexError st pre
  | some i =>
    match pyListIndex numStatePins (st - 1) with
    | none =>
        HandlerResult.indexError (st - 1)
          (pre ++ [Event.pinWrite i 0, Event.stateSet (st - 1)])
    | some j =>
        HandlerResult.ok (st - 1)
          (pre ++ [Event.pinWrite i 0, Event.stateSet (st - 1), Event.pinWrite j 1])

/-- One iteration's inputs: the two (active-low, already decoded) button
reads of `App.run` — `incPressed` = `not self._inc_pin.value`,
`decPressed` = `not self._dec_pin.value` — together with the retry oracles
consumed should the iteration enter `_connect_wifi` or `_connect_udp`. -/
structure LoopInput where
  incPressed : Bool
  decPressed : Bool
  wifiFails : Nat
  udpFails : List UdpFailure

/-- One iteration of `App.run`'s `while True` body:
`if not inc_pin.value and state < STATE_SEND: _handle_inc()`
`elif not dec_pin.value and state > STATE_SLEEP: _handle_dec()`
`elif state == STATE_SEND: _send()`  (one UDP datagram), else nothing. -/
def step (inp : LoopInput) (st : Int) : HandlerResult :=
  if inp.incPressed ∧ st < STATE_SEND then
    handle_inc inp.wifiFails inp.udpFails st
  else if inp.decPressed ∧ STATE_SLEEP < st then handle_dec st
  else if st = STATE_SEND then HandlerResult.ok st [Event.radio Action.send]
  else HandlerResult.ok st []

/-- Finitely many iterations of `App.run`'s loop from state `st`, consuming
one `LoopInput` per iteration and concatenating the event traces; an
IndexError in an iteration propagates (aborting the loop), as it would in
Python. -/
def runSteps : List LoopInput → Int → HandlerResult
  | [], st => HandlerResult.ok st []
  | inp :: rest, st =>
    match step inp st with
    | HandlerResult.indexError st' evs => HandlerResult.indexError st' evs
    | HandlerResult.ok st' evs =>
      match runSteps rest st' with
      | HandlerResult.ok st'' evs' => HandlerResult.ok st'' (evs ++ evs')
      | HandlerResult.indexError st'' evs' =>
          HandlerResult.indexError st'' (evs ++ evs')

/-- The sequence of `self._state` values visited: the start state, then the
state after each iteration (stopping at an IndexError, whose raise-time
state is recorded last). -/
def stateTrace : List LoopInput → Int → List Int
  | [], st => [st]
  | inp :: rest, st =>
    match step inp st with
    | HandlerResult.ok st' _ => st :: stateTrace rest st'
    | HandlerResult.indexError st' _ => [st, st']

/-- The subsequence of radio-link calls in an event trace. -/
def radioActions : List Event → List Action
  | [] => []
  | Event.radio a :: rest => a :: radioActions rest
  | _ :: rest => radioActions rest

/-- Whether a radio-link call is a state-transition action of the two action
tables (everything except the per-iteration `send` of the Sending state). -/
def isTransitionAction : Action → Bool
  | Action.send => false
  | _ => true

/-- The subsequence of transition-table radio actions in an event trace. -/
def transitionActions (evs : List Event) : List Action :=
  (radioActions evs).filter isTransitionAction

/-- Initial state established by `App.__init__`: `self._state = STATE_IDLE`. -/
def initialState : Int := STATE_IDLE

/-- Embedding of the guarded `from secrets import secrets` at module load
(lines 62-66 of `main.py`): with `secrets.py` present the import succeeds;
without it the handler prints and re-raises the ImportError, so the program
aborts before `App` is constructed (`none`). -/
def importSecrets (secretsPresent : Bool) : Option Unit :=
  if secretsPresent then some () else none

/-- A loop iteration in which only the increment button is pressed and any
retry loop entered succeeds on its first attempt. -/
def incOnly : LoopInput := LoopInput.mk true false 0 []

/-- A loop iteration in which only the decrement button is pressed and any
retry loop entered succeeds on its first attempt. -/
def decOnly : LoopInput := LoopInput.mk false true 0 []

/-- The eight-press scenario: three increments followed by five decrements. -/
def scenarioInputs : List LoopInput :=
  [incOnly, incOnly, incOnly, decOnly, decOnly, decOnly, decOnly, decOnly]

/-
Helper lemmas.
-/

lemma pyListIndex_of_nonneg (len : Nat) (i : Int) (h0 : 0 ≤ i)
    (h : i < (len : Int)) : pyListIndex len i = some i.toNat := by
  simp [pyListIndex, h0, h]

lemma handle_inc_eq (w : Nat) (u : List UdpFailure) (st : Int)
    (h0 : 0 ≤ st) (h : st < 4) :
    handle_inc w u st = HandlerResult.ok (st + 1)
      (Event.blink :: incAction w u st ++
        [Event.blink, Event.pinWrite st.toNat 0, Event.stateSet (st + 1),
         Event.pinWrite (st + 1).toNat 1]) := by
  have e1 : pyListIndex numStatePins st = some st.toNat :=
    pyListIndex_of_nonneg _ _ h0 (by simp only [numStatePins]; omega)
  have e2 : pyListIndex numStatePins (st + 1) = some (st + 1).toNat :=
    pyListIndex_of_nonneg _ _ (by omega) (by simp only [numStatePins]; omega)
  simp [handle_inc, e1, e2]

lemma handle_dec_eq (st : Int) (h0 : 0 < st) (h : st ≤ 4) :
    handle_dec st = HandlerResult.ok (st - 1)
      (Event.blink :: decAction st ++
        [Event.blink, Event.pinWrite st.toNat 0, Event.stateSet (st - 1),
         Event.pinWrite (st - 1).toNat 1]) := by
  have e1 : pyListIndex numStatePins st = some st.toNat :=
    pyListIndex_of_nonneg _ _ (by omega) (by simp only [numStatePins]; omega)
  have e2 : pyListIndex numStatePins (st - 1) = some (st - 1).toNat :=
    pyListIndex_of_nonneg _ _ (by omega) (by simp only [numStatePins]; omega)
  simp [handle_dec, e1, e2]

lemma radioActions_append (a b : List Event) :
    radioActions (a ++ b) = radioActions a ++ radioActions b := by
  induction a with
  | nil => rfl
  | cons e rest ih => cases e <;> simp [radioActions, ih]

lemma radioActions_connectWifi (n : Nat) :
    radioActions (connectWifi n) = List.replicate (n + 1) Action.connect := by
  induction n with
  | zero => rfl
  | succ n ih => simp [connectWifi, radioActions, ih, List.replicate_succ]

lemma radioActions_connectUdp (u : List UdpFailure) :
    radioActions (connectUdp u) = List.replicate (u.length + 1) Action.openSocket := by
  induction u with
  | nil => rfl
  | cons f rest ih =>
    cases f <;> simp [connectUdp, radioActions, ih, List.replicate_succ]

lemma count_failed_connectWifi (n : Nat) :
    (connectWifi n).count (Event.printMsg "Failed:") = n := by
  induction n with
  | zero => rfl
  | succ n ih => simp [connectWifi, List.count_cons, ih]

lemma count_sleep_connectUdp (u : List UdpFailure) :
    (connectUdp u).count (Event.sleepSec 1) = u.count UdpFailure.returnsFalse := by
  induction u with
  | nil => rfl
  | cons f rest ih => cases f <;> simp [connectUdp, List.count_cons, ih]

lemma count_failed_connectUdp (u : List UdpFailure) :
    (connectUdp u).count (Event.printMsg "Failed:") = u.count UdpFailure.raises := by
  induction u with
  | nil => rfl
  | cons f rest ih => cases f <;> simp [connectUdp, List.count_cons, ih]

lemma getLast_connectUdp (u : List UdpFailure) :
    (connectUdp u).getLast? = some (Event.printMsg "done") := by
  induction u with
  | nil => rfl
  | cons f rest ih => cases f <;> simp [connectUdp, List.getLast?_cons, ih]

lemma send_not_mem_connectWifi (n : Nat) :
    Event.radio Action.send ∉ connectWifi n := by
  induction n with
  | zero => decide
  | succ n ih => simp [connectWifi, ih]

lemma send_not_mem_connectUdp (u : List UdpFailure) :
    Event.radio Action.send ∉ connectUdp u := by
  induction u with
  | nil => decide
  | cons f rest ih => cases f <;> simp [connectUdp, ih]

lemma send_not_mem_incAction (w : Nat) (u : List UdpFailure) (st : Int) :
    Event.radio Action.send ∉ incAction w u st := by
  unfold incAction
  split
  · decide
  · split
    · exact send_not_mem_connectWifi w
    · split
      · exact send_not_mem_connectUdp u
      · split <;> decide

lemma send_not_mem_decAction (st : Int) :
    Event.radio Action.send ∉ decAction st := by
  unfold decAction
  split
  · decide
  · split
    · decide
    · split
      · decide
      · split <;> decide

lemma send_not_mem_handle_inc (w : Nat) (u : List UdpFailure) (st : Int) :
    Event.radio Action.send ∉ (handle_inc w u st).events := by
  have hact := send_not_mem_incAction w u st
  unfold handle_inc
  cases h1 : pyListIndex numStatePins st with
  | none => simp_all [HandlerResult.events]
  | some i =>
    cases h2 : pyListIndex numStatePins (st + 1) <;>
      simp_all [HandlerResult.events]

lemma send_not_mem_handle_dec (st : Int) :
    Event.radio Action.send ∉ (handle_dec st).events := by
  have hact := send_not_mem_decAction st
  unfold handle_dec
  cases h1 : pyListIndex numStatePins st with
  | none => simp_all [HandlerResult.events]
  | some i =>
    cases h2 : pyListIndex numStatePins (st - 1) <;>
      simp_all [HandlerResult.events]

lemma step_ok (inp : LoopInput) (st : Int) (h0 : 0 ≤ st) (h4 : st ≤ 4) :
    ∃ st' evs, step inp st = HandlerResult.ok st' evs ∧ 0 ≤ st' ∧ st' ≤ 4
      ∧ (st' = st + 1 ∨ st' = st - 1 ∨ st' = st)
      ∧ (inp.incPressed = true → st < 4 → st' = st + 1)
      ∧ (inp.incPressed = false → inp.decPressed = true → 0 < st → st' = st - 1) := by
  unfold step
  simp only [STATE_SEND, STATE_SLEEP]
  by_cases hi : inp.incPressed = true ∧ st < 4
  · rw [if_pos hi]
    rw [handle_inc_eq inp.wifiFails inp.udpFails st h0 hi.2]
    exact ⟨st + 1, _, rfl, by omega, by omega, Or.inl rfl,
      fun _ _ => rfl, fun hf _ _ => absurd hi.1 (by simp [hf])⟩
  · rw [if_neg hi]
    by_cases hd : inp.decPressed = true ∧ 0 < st
    · rw [if_pos hd]
      rw [handle_dec_eq st hd.2 h4]
      exact ⟨st - 1, _, rfl, by omega, by omega, Or.inr (Or.inl rfl),
        fun ht hlt => absurd ⟨ht, hlt⟩ hi, fun _ _ _ => rfl⟩
    · by_cases hs : st = 4
      · rw [if_neg hd, if_pos hs]
        exact ⟨st, _, rfl, h0, h4, Or.inr (Or.inr rfl),
          fun ht hlt => absurd ⟨ht, hlt⟩ hi,
          fun _ htd hp => absurd ⟨htd, hp⟩ hd⟩
      · rw [if_neg hd, if_neg hs]
        exact ⟨st, _, rfl, h0, h4, Or.inr (Or.inr rfl),
          fun ht hlt => absurd ⟨ht, hlt⟩ hi,
          fun _ htd hp => absurd ⟨htd, hp⟩ hd⟩

lemma runSteps_ok (inps : List LoopInput) (st : Int) (h0 : 0 ≤ st) (h4 : st ≤ 4) :
    ∃ st' evs, runSteps inps st = HandlerResult.ok st' evs ∧ 0 ≤ st' ∧ st' ≤ 4 := by
  induction inps generalizing st with
  | nil => exact ⟨st, [], rfl, h0, h4⟩
  | cons inp rest ih =>
    obtain ⟨s1, e1, hs, hb1, hb2, -⟩ := step_ok inp st h0 h4
    obtain ⟨s2, e2, hr, hb3, hb4⟩ := ih s1 hb1 hb2
    exact ⟨s2, e1 ++ e2, by simp [runSteps, hs, hr], hb3, hb4⟩

lemma step_cases (inp : LoopInput) (st : Int) :
    (inp.incPressed = true ∧ st < 4 ∧
      step inp st = handle_inc inp.wifiFails inp.udpFails st)
  ∨ (¬(inp.incPressed = true ∧ st < 4) ∧ inp.decPressed = true ∧ 0 < st ∧
      step inp st = handle_dec st)
  ∨ (¬(inp.incPressed = true ∧ st < 4) ∧ ¬(inp.decPressed = true ∧ 0 < st) ∧
      st = 4 ∧ step inp st = HandlerResult.ok st [Event.radio Action.send])
  ∨ (¬(inp.incPressed = true ∧ st < 4) ∧ ¬(inp.decPressed = true ∧ 0 < st) ∧
      st ≠ 4 ∧ step inp st = HandlerResult.ok st []) := by
  unfold step
  simp only [STATE_SEND, STATE_SLEEP]
  by_cases hi : inp.incPressed = true ∧ st < 4
  · exact Or.inl ⟨hi.1, hi.2, if_pos hi⟩
  · rw [if_neg hi]
    by_cases hd : inp.decPressed = true ∧ 0 < st
    · exact Or.inr (Or.inl ⟨hi, hd.1, hd.2, if_pos hd⟩)
    · rw [if_neg hd]
      by_cases hs : st = 4
      · exact Or.inr (Or.inr (Or.inl ⟨hi, hd, hs, if_pos hs⟩))
      · exact Or.inr (Or.inr (Or.inr ⟨hi, hd, hs, if_neg hs⟩))

/-
Claim theorems.
-/

/-- Claim C1: from every state S in {Sleep, Idle, Connected, SocketOpen},
`_handle_inc` invokes exactly the increment-table action for S (Sleep: hard
reset; Idle: AP-connect retry loop; Connected: open UDP socket retry loop;
SocketOpen: no radio action), selected on the pre-transition state and run
before the `self._state` assignment (the action events precede
`Event.stateSet` in each trace), and ends in state S+1.  The last two
conjuncts pin down the radio calls of the two retry-loop actions. -/
theorem inc_transition_action_table (w : Nat) (u : List UdpFailure) :
    (handle_inc w u STATE_SLEEP = HandlerResult.ok STATE_IDLE
      [Event.blink, Event.printMsg "leave ESP-01 sleep", Event.radio Action.hardReset,
       Event.blink, Event.pinWrite 0 0, Event.stateSet STATE_IDLE, Event.pinWrite 1 1])
  ∧ (handle_inc w u STATE_IDLE = HandlerResult.ok STATE_CONN
      (Event.blink :: connectWifi w ++
        [Event.blink, Event.pinWrite 1 0, Event.stateSet STATE_CONN, Event.pinWrite 2 1]))
  ∧ (handle_inc w u STATE_CONN = HandlerResult.ok STATE_UDP
      (Event.blink :: connectUdp u ++
        [Event.blink, Event.pinWrite 2 0, Event.stateSet STATE_UDP, Event.pinWrite 3 1]))
  ∧ (handle_inc w u STATE_UDP = HandlerResult.ok STATE_SEND
      [Event.blink, Event.printMsg "starting to send data", Event.blink,
       Event.pinWrite 3 0, Event.stateSet STATE_SEND, Event.pinWrite 4 1])
  ∧ radioActions (connectWifi w) = List.replicate (w + 1) Action.connect
  ∧ radioActions (connectUdp u) = List.replicate (u.length + 1) Action.openSocket := by
  refine ⟨?_, ?_, ?_, ?_, radioActions_connectWifi w, radioActions_connectUdp u⟩
  · have h := handle_inc_eq w u STATE_SLEEP (by decide) (by decide)
    simpa [incAction, STATE_SLEEP, STATE_IDLE] using h
  · have h := handle_inc_eq w u STATE_IDLE (by decide) (by decide)
    simpa [incAction, STATE_SLEEP, STATE_IDLE, STATE_CONN] using h
  · have h := handle_inc_eq w u STATE_CONN (by decide) (by decide)
    simpa [incAction, STATE_SLEEP, STATE_IDLE, STATE_CONN, STATE_UDP] using h
  · have h := handle_inc_eq w u STATE_UDP (by decide) (by decide)
    simpa [incAction, STATE_SLEEP, STATE_IDLE, STATE_CONN, STATE_UDP, STATE_SEND] using h

/-- Claim C2: from every state S in {Idle, Connected, SocketOpen, Sending},
`_handle_dec` invokes exactly the decrement-table action for S (Idle:
`deep_sleep(0)`; Connected: soft reset; SocketOpen: close the UDP socket;
Sending: no radio action), selected on the pre-transition state and run
before the `self._state` assignment (the action events precede
`Event.stateSet` in each trace), and ends in state S-1. -/
theorem dec_transition_action_table :
    (handle_dec STATE_IDLE = HandlerResult.ok STATE_SLEEP
      [Event.blink, Event.printMsg "enter ESP-01 sleep", Event.radio (Action.deepSleep 0),
       Event.blink, Event.pinWrite 1 0, Event.stateSet STATE_SLEEP, Event.pinWrite 0 1])
  ∧ (handle_dec STATE_CONN = HandlerResult.ok STATE_IDLE
      [Event.blink, Event.printMsg "disconnect from AP", Event.radio Action.softReset,
       Event.blink, Event.pinWrite 2 0, Event.stateSet STATE_IDLE, Event.pinWrite 1 1])
  ∧ (handle_dec STATE_UDP = HandlerResult.ok STATE_CONN
      [Event.blink, Event.printMsg "disconnect from UDP", Event.radio Action.closeSocket,
       Event.blink, Event.pinWrite 3 0, Event.stateSet STATE_CONN, Event.pinWrite 2 1])
  ∧ (handle_dec STATE_SEND = HandlerResult.ok STATE_UDP
      [Event.blink, Event.printMsg "stop sending data",
       Event.blink, Event.pinWrite 4 0, Event.stateSet STATE_UDP, Event.pinWrite 3 1]) := by
  decide

/-- Claim C3: from the initial state Idle set by `App.__init__`, after any
finite sequence of serviced loop iterations the state is one of the five
values Sleep..Sending; each iteration from a valid state completes without
fault and moves the state by exactly +1 (serviced increment), -1 (serviced
decrement) or 0, never skipping a level; and at the boundaries an increment
press in Sending and a decrement press in Sleep leave the state unchanged
and invoke no transition-table action (the only event possibly emitted is
the Sending state's own periodic send). -/
theorem run_state_invariant :
    initialState = STATE_IDLE
  ∧ (∀ inps : List LoopInput, ∃ st' evs,
      runSteps inps initialState = HandlerResult.ok st' evs
      ∧ (st' = STATE_SLEEP ∨ st' = STATE_IDLE ∨ st' = STATE_CONN ∨
         st' = STATE_UDP ∨ st' = STATE_SEND))
  ∧ (∀ (inp : LoopInput) (st : Int), STATE_SLEEP ≤ st → st ≤ STATE_SEND →
      ∃ st' evs, step inp st = HandlerResult.ok st' evs
        ∧ STATE_SLEEP ≤ st' ∧ st' ≤ STATE_SEND
        ∧ (st' = st + 1 ∨ st' = st - 1 ∨ st' = st)
        ∧ (inp.incPressed = true → st < STATE_SEND → st' = st + 1)
        ∧ (inp.incPressed = false → inp.decPressed = true → STATE_SLEEP < st →
            st' = st - 1))
  ∧ (∀ (w : Nat) (u : List UdpFailure),
      step (LoopInput.mk true false w u) STATE_SEND
        = HandlerResult.ok STATE_SEND [Event.radio Action.send]
      ∧ transitionActions [Event.radio Action.send] = []
      ∧ step (LoopInput.mk false true w u) STATE_SLEEP
        = HandlerResult.ok STATE_SLEEP []) := by
  refine ⟨rfl, ?_, ?_, ?_⟩
  · intro inps
    obtain ⟨st', evs, h, h0, h4⟩ :=
      runSteps_ok inps initialState (by decide) (by decide)
    refine ⟨st', evs, h, ?_⟩
    simp only [STATE_SLEEP, STATE_IDLE, STATE_CONN, STATE_UDP, STATE_SEND]
    omega
  · intro inp st h0 h4
    simp only [STATE_SLEEP, STATE_SEND] at h0 h4 ⊢
    exact step_ok inp st h0 h4
  · intro w u
    refine ⟨?_, rfl, ?_⟩
    · simp [step, STATE_SEND, STATE_SLEEP]
    · simp [step, STATE_SEND, STATE_SLEEP]

/-- Witness for C3: one serviced increment from Idle, instantiating the
per-iteration clause of `run_state_invariant` at a concrete input. -/
theorem run_state_invariant_witness :
    ∃ st' evs, step incOnly STATE_IDLE = HandlerResult.ok st' evs
      ∧ STATE_SLEEP ≤ st' ∧ st' ≤ STATE_SEND
      ∧ (st' = STATE_IDLE + 1 ∨ st' = STATE_IDLE - 1 ∨ st' = STATE_IDLE)
      ∧ (incOnly.incPressed = true → STATE_IDLE < STATE_SEND → st' = STATE_IDLE + 1)
      ∧ (incOnly.incPressed = false → incOnly.decPressed = true →
          STATE_SLEEP < STATE_IDLE → st' = STATE_IDLE - 1) :=
  run_state_invariant.2.2.1 incOnly STATE_IDLE (by decide) (by decide)

/-- Claim C4: starting in Idle, the sequence inc, inc, inc, dec, dec, dec,
dec, dec visits Idle, Connected, SocketOpen, Sending, SocketOpen, Connected,
Idle, Sleep, stays in Sleep on the final no-op decrement, produces exactly
the radio actions [connect, openSocket, closeSocket, softReset, deepSleep 0],
and the final no-op iteration emits no event at all. -/
theorem scenario_trace :
    stateTrace scenarioInputs initialState =
      [STATE_IDLE, STATE_CONN, STATE_UDP, STATE_SEND, STATE_UDP, STATE_CONN,
       STATE_IDLE, STATE_SLEEP, STATE_SLEEP]
  ∧ radioActions (runSteps scenarioInputs initialState).events =
      [Action.connect, Action.openSocket, Action.closeSocket, Action.softReset,
       Action.deepSleep 0]
  ∧ step decOnly STATE_SLEEP = HandlerResult.ok STATE_SLEEP [] := by
  decide

/-- Claim C5: with a radio link whose `wifi.connect()` raises on the first
`n` attempts and then succeeds, the increment from Idle invokes `connect`
exactly `n + 1` times, prints the failure diagnostic exactly `n` times, and
leaves the controller in state Connected. -/
theorem wifi_retry_n_plus_one (n : Nat) (u : List UdpFailure) :
    ∃ evs, handle_inc n u STATE_IDLE = HandlerResult.ok STATE_CONN evs
      ∧ radioActions evs = List.replicate (n + 1) Action.connect
      ∧ evs.count (Event.printMsg "Failed:") = n := by
  refine ⟨Event.blink :: connectWifi n ++
    [Event.blink, Event.pinWrite 1 0, Event.stateSet STATE_CONN, Event.pinWrite 2 1],
    ?_, ?_, ?_⟩
  · have h := handle_inc_eq n u STATE_IDLE (by decide) (by decide)
    simpa [incAction, STATE_SLEEP, STATE_IDLE, STATE_CONN] using h
  · simp [radioActions, radioActions_append, radioActions_connectWifi]
  · simp [List.count_cons, List.count_append, count_failed_connectWifi]

/-- Counterexample to C6 as stated: a failed `socket_connect` attempt that
raises is retried with no inter-attempt delay (zero `time.sleep` events in a
two-attempt run), and a failed attempt that returns False is retried with no
failure diagnostic printed — so the socket-open retry loop does not combine
a 1-unit delay with a diagnostic on every failure. -/
theorem udp_retry_counterexample :
    radioActions (connectUdp [UdpFailure.raises]) = [Action.openSocket, Action.openSocket]
  ∧ (connectUdp [UdpFailure.raises]).count (Event.sleepSec 1) = 0
  ∧ radioActions (connectUdp [UdpFailure.returnsFalse]) = [Action.openSocket, Action.openSocket]
  ∧ (connectUdp [UdpFailure.returnsFalse]).count (Event.printMsg "Failed:") = 0 := by
  decide

/-- Claim C6 as amended: the socket-open loop retries unboundedly (any
finite failure sequence is followed by success) with no backoff, no retry
limit and no fatal escalation, invoking `socket_connect` once per attempt;
an attempt that raises prints the diagnostic and retries immediately, an
attempt that returns False sleeps 1 second and retries without a
diagnostic, and the loop returns (printing done last) exactly once
`socket_connect` succeeds. -/
theorem udp_retry_unbounded (u : List UdpFailure) :
    radioActions (connectUdp u) = List.replicate (u.length + 1) Action.openSocket
  ∧ (connectUdp u).count (Event.sleepSec 1) = u.count UdpFailure.returnsFalse
  ∧ (connectUdp u).count (Event.printMsg "Failed:") = u.count UdpFailure.raises
  ∧ (connectUdp u).getLast? = some (Event.printMsg "done") :=
  ⟨radioActions_connectUdp u, count_sleep_connectUdp u,
    count_failed_connectUdp u, getLast_connectUdp u⟩

/-- Claim C7: per loop iteration at most one branch fires, with priority
increment, then decrement, then send: a serviced increment runs
`_handle_inc`; a held decrement in Sending is serviced by `_handle_dec`
(whose trace contains no send) before any send; the send action fires iff
the state is Sending and the decrement button is not pressed (the increment
guard can never fire there); and an iteration servicing no branch leaves the
state unchanged with no events. -/
theorem loop_branch_priority (inp : LoopInput) (st : Int)
    (h0 : STATE_SLEEP ≤ st) (h4 : st ≤ STATE_SEND) :
    (Event.radio Action.send ∈ (step inp st).events ↔
      st = STATE_SEND ∧ inp.decPressed = false)
  ∧ (inp.incPressed = true → st < STATE_SEND →
      step inp st = handle_inc inp.wifiFails inp.udpFails st)
  ∧ (inp.decPressed = true → st = STATE_SEND →
      step inp st = handle_dec st
      ∧ Event.radio Action.send ∉ (handle_dec st).events)
  ∧ (st = STATE_SEND → inp.decPressed = false →
      step inp st = HandlerResult.ok st [Event.radio Action.send])
  ∧ (inp.incPressed = false → inp.decPressed = false → st ≠ STATE_SEND →
      step inp st = HandlerResult.ok st []) := by
  simp only [STATE_SLEEP, STATE_SEND] at h0 h4 ⊢
  have hsc := step_cases inp st
  refine ⟨?_, ?_, ?_, ?_, ?_⟩
  · constructor
    · intro hmem
      rcases hsc with ⟨-, -, he⟩ | ⟨-, -, -, he⟩ | ⟨-, hd, hs, he⟩ | ⟨-, -, -, he⟩
      · rw [he] at hmem; exact absurd hmem (send_not_mem_handle_inc _ _ _)
      · rw [he] at hmem; exact absurd hmem (send_not_mem_handle_dec _)
      · refine ⟨hs, ?_⟩
        by_contra hne
        have hdt : inp.decPressed = true := by
          cases hde : inp.decPressed
          · exact absurd hde hne
          · rfl
        exact hd ⟨hdt, by omega⟩
      · rw [he] at hmem; simp [HandlerResult.events] at hmem
    · rintro ⟨hs, hdf⟩
      rcases hsc with ⟨-, hlt, -⟩ | ⟨-, hd, -, -⟩ | ⟨-, -, -, he⟩ | ⟨-, -, hne, -⟩
      · omega
      · rw [hd] at hdf; exact absurd hdf (by simp)
      · rw [he]; simp [HandlerResult.events]
      · exact absurd hs hne
  · intro ht hlt
    rcases hsc with ⟨-, -, he⟩ | ⟨hni, -, -, -⟩ | ⟨hni, -, -, -⟩ | ⟨hni, -, -, -⟩
    · exact he
    all_goals exact absurd ⟨ht, hlt⟩ hni
  · intro hd hs
    have hni : ¬(inp.incPressed = true ∧ st < 4) := by
      rintro ⟨-, hlt⟩; omega
    have hstep : step inp st = handle_dec st := by
      rcases hsc with ⟨hii, hlt, -⟩ | ⟨-, -, -, he⟩ | ⟨-, hnd, -, -⟩ | ⟨-, hnd, -, -⟩
      · omega
      · exact he
      all_goals exact absurd ⟨hd, by omega⟩ hnd
    exact ⟨hstep, send_not_mem_handle_dec st⟩
  · intro hs hdf
    rcases hsc with ⟨-, hlt, -⟩ | ⟨-, hd, -, -⟩ | ⟨-, -, -, he⟩ | ⟨-, -, hne, -⟩
    · omega
    · rw [hd] at hdf; exact absurd hdf (by simp)
    · rw [he, hs]
    · exact absurd hs hne
  · intro hif hdf hne
    rcases hsc with ⟨hii, -, -⟩ | ⟨-, hd, -, -⟩ | ⟨-, -, hs, -⟩ | ⟨-, -, -, he⟩
    · rw [hif] at hii; exact absurd hii (by simp)
    · rw [hdf] at hd; exact absurd hd (by simp)
    · exact absurd hs hne
    · exact he

/-- Witness for C7: the send-iff clause of `loop_branch_priority` at a held
decrement in Sending (both sides false: the iteration runs `_handle_dec`,
not the send). -/
theorem loop_branch_priority_witness :
    Event.radio Action.send ∈ (step decOnly STATE_SEND).events ↔
      (STATE_SEND = STATE_SEND ∧ decOnly.decPressed = false) :=
  (loop_branch_priority decOnly STATE_SEND (by decide) (by decide)).1

/-- Counterexample to C8 as stated: in the increment from SocketOpen both
indicator flashes (exactly two `blink` events) occur before the
`self._state` assignment; after the `stateSet` event no flash occurs, so the
second flash does not happen after the state variable has changed. -/
theorem blink_timing_counterexample :
    (handle_inc 0 [] STATE_UDP).events =
      [Event.blink, Event.printMsg "starting to send data", Event.blink,
       Event.pinWrite 3 0, Event.stateSet STATE_SEND, Event.pinWrite 4 1]
  ∧ (handle_inc 0 [] STATE_UDP).events.count Event.blink = 2
  ∧ Event.blink ∉ ((handle_inc 0 [] STATE_UDP).events.dropWhile
      (fun e => e != Event.stateSet STATE_SEND)) := by
  decide

/-- Claim C8 as amended: every button-triggered transition is bracketed by
two indicator flashes — one before the transition's action executes and a
second after the action completes but still before the state variable
changes (the `stateSet` event is followed only by the indicator-pin write,
never by a flash). -/
theorem blinks_bracket_transition (w : Nat) (u : List UdpFailure) (st : Int)
    (h0 : STATE_SLEEP ≤ st) (h : st < STATE_SEND) :
    (handle_inc w u st).events =
      Event.blink :: incAction w u st ++
        [Event.blink, Event.pinWrite st.toNat 0, Event.stateSet (st + 1),
         Event.pinWrite (st + 1).toNat 1]
  ∧ ∀ (st2 : Int), STATE_SLEEP < st2 → st2 ≤ STATE_SEND →
      (handle_dec st2).events =
        Event.blink :: decAction st2 ++
          [Event.blink, Event.pinWrite st2.toNat 0, Event.stateSet (st2 - 1),
           Event.pinWrite (st2 - 1).toNat 1] := by
  simp only [STATE_SLEEP, STATE_SEND] at h0 h ⊢
  constructor
  · rw [handle_inc_eq w u st h0 h]
    simp [HandlerResult.events]
  · intro st2 hp hle
    rw [handle_dec_eq st2 hp hle]
    simp [HandlerResult.events]

/-- Witness for C8 (amended): the increment from SocketOpen, instantiating
`blinks_bracket_transition` at a concrete state. -/
theorem blinks_bracket_transition_witness :
    (handle_inc 0 [] STATE_UDP).events =
      Event.blink :: incAction 0 [] STATE_UDP ++
        [Event.blink, Event.pinWrite STATE_UDP.toNat 0,
         Event.stateSet (STATE_UDP + 1), Event.pinWrite (STATE_UDP + 1).toNat 1] :=
  (blinks_bracket_transition 0 [] STATE_UDP (by decide) (by decide)).1

/-- Counterexample to C9 as stated: the program has one fatal path — with
`secrets.py` absent the guarded import prints and re-raises ImportError,
aborting before the loop starts. -/
theorem missing_secrets_aborts : importSecrets false = none := rfl

/-- Claim C9 as amended: once startup succeeds (the secrets import
resolves), the program never exits — every finite number of iterations of
`run`'s `while True` loop from the initial state completes normally (the
guarded handlers never fault), the loop body has no break or return, and
the radio-link calls outside the two retry sites are fire-and-forget events
that cannot fail in this model, per the spec's collaborator assumption. -/
theorem loop_never_exits :
    importSecrets true = some ()
  ∧ (∀ inps : List LoopInput, ∃ st' evs,
      runSteps inps initialState = HandlerResult.ok st' evs) := by
  refine ⟨rfl, ?_⟩
  intro inps
  obtain ⟨st', evs, h, -, -⟩ := runSteps_ok inps initialState (by decide) (by decide)
  exact ⟨st', evs, h⟩

/-- Claim C10: the handlers do not enforce their preconditions — only
`run`'s guards do.  Calling `_handle_inc` with state Sending mutates the
state to 5 and the five-entry pin-list indexing at 5 raises IndexError;
calling `_handle_dec` with state Sleep mutates the state to -1 and, by
Python negative indexing (index -1 resolving to entry 4), silently drives
the Sending-state pin high with no error raised. -/
theorem unguarded_handlers_out_of_range :
    (handle_inc 0 [] STATE_SEND = HandlerResult.indexError 5
      [Event.blink, Event.blink, Event.pinWrite 4 0, Event.stateSet 5])
  ∧ pyListIndex numStatePins 5 = none
  ∧ (handle_dec STATE_SLEEP = HandlerResult.ok (-1)
      [Event.blink, Event.blink, Event.pinWrite 0 0, Event.stateSet (-1),
       Event.pinWrite 4 1])
  ∧ pyListIndex numStatePins (-1) = some 4 := by
  decide

end PicoEsp01
